import Mathlib

/-!
Shallow embedding of the Poco Data binding layer
(`Data/include/Poco/Data/Binding.h`).

The header defines the class template `Binding<T>` together with
specializations for `const char*`, `std::vector<T>`, `std::vector<bool>`,
`std::list<T>`, `std::deque<T>`, `std::set<T>`, `std::multiset<T>`,
`std::map<K, V>` and `std::multimap<K, V>`, plus the convenience factory
functions `use`, `in`, `out`, `io` and `bind`.

Modelling conventions:
* Machine sizes (`std::size_t`) are modelled as `Nat`.
* A C++ collection is modelled as the `List` of its elements in iteration
  order (for `std::set`/`std::map` this is ascending key order).
* The iterator pair `_begin`/`_end` over `_val` is modelled as the remaining
  suffix `rest` of the iterated sequence; `reset` re-derives it from the
  collection the constructor captured, exactly as the C++ members do.
* A throwing constructor returns `Except DataException _`; a member guarded
  by `poco_assert_dbg` returns `Option _`, with `none` marking the
  assertion firing (a debug-checked contract violation).
* The external collaborators (`AbstractBinder`, `TypeHandler`) live outside
  this header; they are modelled from the spec's contract section as an
  event log so that the values a binding delivers are observable.
-/

namespace PocoData

/-- Data-flow direction of a binding (`AbstractBinding::Direction`):
IN, OUT, IN_OUT. -/
inductive Direction
  | PD_IN
  | PD_OUT
  | PD_IN_OUT
deriving DecidableEq

/-- Exceptions raised by the binding layer: `BindingException` (with its
message) and `NullPointerException` (raised by `throw NullPointerException()`
and by `poco_check_ptr`). -/
inductive DataException
  | BindingException (msg : String)
  | NullPointerException
deriving DecidableEq

/-- Message of the empty-collection `BindingException` thrown by every
container constructor. -/
def emptyCollMsg : String := "It is illegal to bind to an empty data collection"

/-- Message of the direction `BindingException` thrown by the
`std::vector<bool>` constructor. -/
def vecBoolDirMsg : String := "Only IN direction is legal for std:vector<bool> binding."

/-- Modelled from the spec: the Binder is an external collaborator with
operations `bind(position, typedValue, direction)` and `reset()`; it is
modelled as the log of bind events it has received plus a counter of the
`reset()` calls made on it. -/
structure Binder (α : Type) where
  log : List (Nat × α × Direction)
  resetCount : Nat
deriving DecidableEq

/-- Modelled from the spec: the Binder's `bind(position, typedValue,
direction)` operation, recording the event. -/
def Binder.bindValue (bd : Binder α) (pos : Nat) (v : α) (d : Direction) : Binder α :=
  { bd with log := bd.log ++ [(pos, v, d)] }

/-- Modelled from the spec: the Binder's `reset()` operation. -/
def Binder.reset (bd : Binder α) : Binder α :=
  { bd with resetCount := bd.resetCount + 1 }

/-- Modelled from the spec: `TypeHandler<T>::size()` is a per-type constant
(the number of physical columns one logical value occupies); it is carried
as a record so theorems can state which element type's handler a member
delegates to. -/
structure TypeHandlerInfo (α : Type) where
  size : Nat

/-- Modelled from the spec: `TypeHandler<T>::bind(pos, val, pBinder, dir)`
performs the actual typed bind against the Binder; modelled as forwarding
the value to the Binder's bind operation. -/
def TypeHandler.bindOp (pos : Nat) (v : α) (bd : Binder α) (d : Direction) : Binder α :=
  Binder.bindValue bd pos v d

/-- Whether an `Except` result is a success (construction did not throw). -/
def isOkE (e : Except DataException β) : Bool :=
  match e with
  | Except.ok _ => true
  | Except.error _ => false

/-! ## `Binding<T>` — the scalar adapter (primary template) -/

/-- `Binding<T>` (primary template). Fields: `_pVal` (the `SharedPtr` copy,
present iff `copy` was requested) ↦ `pVal`; `_val` (the value of the
referenced-or-copied storage) ↦ `val`; `_bound` ↦ `bound`; the
`AbstractBinding` base supplies `name`, `direction` and the Binder
pointer ↦ `binder`. -/
structure ScalarBinding (α : Type) where
  name : String
  direction : Direction
  pVal : Option α
  val : α
  bound : Bool
  binder : Option (Binder α)
deriving DecidableEq

/-- `Binding<T>::Binding(val, name, direction, copy)`:
`_pVal(copy ? new T(val) : 0), _val(copy ? *_pVal : val), _bound(false)`.
Value-wise `_val` equals the argument in both modes. -/
def ScalarBinding.construct (v : α) (nm : String) (d : Direction) (copy : Bool) :
    ScalarBinding α :=
  { name := nm, direction := d, pVal := if copy then some v else none,
    val := v, bound := false, binder := none }

/-- Modelled from the spec: the Binder is assigned by the consumer before
first use (`AbstractBinding::setBinder`, outside this header). -/
def ScalarBinding.setBinder (b : ScalarBinding α) (bd : Binder α) : ScalarBinding α :=
  { b with binder := some bd }

/-- `Binding<T>::numOfColumnsHandled()`: returns `TypeHandler<T>::size()`. -/
def ScalarBinding.numOfColumnsHandled (_b : ScalarBinding α) (th : TypeHandlerInfo α) :
    Nat :=
  th.size

/-- `Binding<T>::numOfRowsHandled()`: returns 1. -/
def ScalarBinding.numOfRowsHandled (_b : ScalarBinding α) : Nat := 1

/-- `Binding<T>::canBind()`: returns `!_bound`. -/
def ScalarBinding.canBind (b : ScalarBinding α) : Bool := !b.bound

/-- `Binding<T>::bind(pos)`: `poco_assert_dbg(getBinder() != 0)` (modelled as
`none`), then `TypeHandler<T>::bind(pos, _val, getBinder(), getDirection())`
and `_bound = true`. Note: unlike the container specializations, this member
has no `poco_assert_dbg(canBind())`. -/
def ScalarBinding.bind (b : ScalarBinding α) (pos : Nat) : Option (ScalarBinding α) :=
  match b.binder with
  | none => none
  | some bd =>
      some { b with
                binder := some (TypeHandler.bindOp pos b.val bd b.direction)
                bound := true }

/-- `Binding<T>::reset()`: sets `_bound = false`, then
`poco_check_ptr(getBinder())` (a `NullPointerException` when no Binder is
attached, reported in the second component), then forwards `reset()` to the
Binder. -/
def ScalarBinding.reset (b : ScalarBinding α) :
    ScalarBinding α × Option DataException :=
  match b.binder with
  | none => ({ b with bound := false }, some DataException.NullPointerException)
  | some bd => ({ b with bound := false, binder := some bd.reset }, none)

/-! ## `Binding<const char*>` — the string-literal adapter -/

/-- `Binding<const char*>`: wraps the char pointer in an owned
`std::string _val`. A possibly-null `const char*` is modelled as
`Option String`. -/
structure CharPtrBinding where
  name : String
  direction : Direction
  val : String
  bound : Bool
  binder : Option (Binder String)
deriving DecidableEq

/-- `Binding<const char*>::Binding(pVal, name, direction, copy)`:
`_val(pVal ? pVal : throw NullPointerException())`. The `copy` argument
(defaulted `true` in the header) is accepted but never read — the characters
are always copied into the owned `std::string _val`. -/
def CharPtrBinding.construct (pVal : Option String) (nm : String) (d : Direction)
    (_copy : Bool) : Except DataException CharPtrBinding :=
  match pVal with
  | none => Except.error DataException.NullPointerException
  | some s =>
      Except.ok { name := nm, direction := d, val := s, bound := false, binder := none }

/-- Modelled from the spec: Binder assignment by the consumer. -/
def CharPtrBinding.setBinder (b : CharPtrBinding) (bd : Binder String) : CharPtrBinding :=
  { b with binder := some bd }

/-- `Binding<const char*>::numOfColumnsHandled()`: returns `1u`. -/
def CharPtrBinding.numOfColumnsHandled (_b : CharPtrBinding) : Nat := 1

/-- `Binding<const char*>::numOfRowsHandled()`: returns `1u`. -/
def CharPtrBinding.numOfRowsHandled (_b : CharPtrBinding) : Nat := 1

/-- `Binding<const char*>::canBind()`: returns `!_bound`. -/
def CharPtrBinding.canBind (b : CharPtrBinding) : Bool := !b.bound

/-- `Binding<const char*>::bind(pos)`: asserts the Binder is attached, then
`TypeHandler<std::string>::bind(pos, _val, getBinder(), getDirection())` and
`_bound = true`. -/
def CharPtrBinding.bind (b : CharPtrBinding) (pos : Nat) : Option CharPtrBinding :=
  match b.binder with
  | none => none
  | some bd =>
      some { b with
                binder := some (TypeHandler.bindOp pos b.val bd b.direction)
                bound := true }

/-- `Binding<const char*>::reset()`: `_bound = false`, then
`poco_check_ptr(getBinder())`, then the Binder's `reset()`. -/
def CharPtrBinding.reset (b : CharPtrBinding) :
    CharPtrBinding × Option DataException :=
  match b.binder with
  | none => ({ b with bound := false }, some DataException.NullPointerException)
  | some bd => ({ b with bound := false, binder := some bd.reset }, none)

/-! ## `Binding<std::vector<T>>` and the other sequence-like specializations

The specializations for `std::vector<T>`, `std::list<T>`, `std::deque<T>`,
`std::set<T>` and `std::multiset<T>` have member bodies that are textually
identical (only the container typedef differs); `SeqBinding` embeds all
five, with the collection given as its element sequence in iteration order
(insertion order for vector/list/deque, ascending element order for
set/multiset). -/

/-- `Binding<std::vector<T>>` (and list/deque/set/multiset). `_pVal` ↦
`pVal`, `_val` ↦ `val`; the iterator range `[_begin, _end)` over `_val` is
modelled as the remaining suffix `rest`. -/
structure SeqBinding (α : Type) where
  name : String
  direction : Direction
  pVal : Option (List α)
  val : List α
  rest : List α
  binder : Option (Binder α)
deriving DecidableEq

/-- `numOfRowsHandled()`: returns `_val.size()`. -/
def SeqBinding.numOfRowsHandled (b : SeqBinding α) : Nat := b.val.length

/-- The member-initializer list of the constructor:
`_pVal(copy ? new ... (val) : 0), _val(copy ? *_pVal : val),
_begin(_val.begin()), _end(_val.end())`. -/
def SeqBinding.mkRecord (v : List α) (nm : String) (d : Direction) (copy : Bool) :
    SeqBinding α :=
  { name := nm, direction := d, pVal := if copy then some v else none,
    val := v, rest := v, binder := none }

/-- The constructor: after the member-initializer list, its body runs
`if (PD_IN == direction && numOfRowsHandled() == 0) throw BindingException(...)`.
No Binder is touched (none is attached yet, and no Binder operation occurs). -/
def SeqBinding.construct (v : List α) (nm : String) (d : Direction) (copy : Bool) :
    Except DataException (SeqBinding α) :=
  if d = Direction.PD_IN ∧ (SeqBinding.mkRecord v nm d copy).numOfRowsHandled = 0 then
    Except.error (DataException.BindingException emptyCollMsg)
  else Except.ok (SeqBinding.mkRecord v nm d copy)

/-- Modelled from the spec: Binder assignment by the consumer. -/
def SeqBinding.setBinder (b : SeqBinding α) (bd : Binder α) : SeqBinding α :=
  { b with binder := some bd }

/-- `numOfColumnsHandled()`: returns `TypeHandler<T>::size()` for the element
type. -/
def SeqBinding.numOfColumnsHandled (_b : SeqBinding α) (th : TypeHandlerInfo α) :
    Nat :=
  th.size

/-- `canBind()`: returns `_begin != _end`, i.e. the remaining range is
non-empty. -/
def SeqBinding.canBind (b : SeqBinding α) : Bool := !b.rest.isEmpty

/-- `bind(pos)`: `poco_assert_dbg(getBinder() != 0)`,
`poco_assert_dbg(canBind())` (both modelled as `none`), then
`TypeHandler<T>::bind(pos, *_begin, getBinder(), getDirection())` and
`++_begin`. -/
def SeqBinding.bind (b : SeqBinding α) (pos : Nat) : Option (SeqBinding α) :=
  match b.binder with
  | none => none
  | some bd =>
      match b.rest with
      | [] => none
      | x :: tl =>
          some { b with
                    binder := some (TypeHandler.bindOp pos x bd b.direction)
                    rest := tl }

/-- `reset()`: `_begin = _val.begin(); _end = _val.end();` — only the cursor
is repositioned; the Binder is not touched. -/
def SeqBinding.reset (b : SeqBinding α) : SeqBinding α :=
  { b with rest := b.val }

/-- Iterated `bind(pos)`: `bindN pos k b` performs `k` successive `bind`
calls, propagating a failed debug assertion. -/
def SeqBinding.bindN (pos : Nat) : Nat → SeqBinding α → Option (SeqBinding α)
  | 0, b => some b
  | Nat.succ n, b =>
      match SeqBinding.bind b pos with
      | none => none
      | some b2 => SeqBinding.bindN pos n b2

/-! ## `Binding<std::vector<bool>>` — the boolean-sequence specialization -/

/-- `Binding<std::vector<bool>>`. `_val` is a `const std::vector<bool>&` —
a reference to the caller-owned vector; it is modelled by passing the
referenced vector's current contents to the members that read `_val`
(only `numOfRowsHandled`). `_deq` is the `std::deque<bool>` built from
`_val` at construction ↦ `deq`; the iterator range `[_begin, _end)` over
`_deq` ↦ `rest`. -/
structure VecBoolBinding where
  name : String
  direction : Direction
  deq : List Bool
  rest : List Bool
  binder : Option (Binder Bool)
deriving DecidableEq

/-- `numOfRowsHandled()`: returns `_val.size()` — the size of the *live*
referenced vector, whose current contents are passed as `liveVal`. -/
def VecBoolBinding.numOfRowsHandled (_b : VecBoolBinding) (liveVal : List Bool) :
    Nat :=
  liveVal.length

/-- The member-initializer list: `_val(val), _deq(_val.begin(), _val.end()),
_begin(_deq.begin()), _end(_deq.end())`. -/
def VecBoolBinding.mkRecord (v : List Bool) (nm : String) (d : Direction) :
    VecBoolBinding :=
  { name := nm, direction := d, deq := v, rest := v, binder := none }

/-- The constructor body: `if (PD_IN != direction) throw BindingException(...)`
then `if (numOfRowsHandled() == 0) throw BindingException(...)` (at
construction time the referenced vector holds `v`). There is no copy
argument. -/
def VecBoolBinding.construct (v : List Bool) (nm : String) (d : Direction) :
    Except DataException VecBoolBinding :=
  if d ≠ Direction.PD_IN then
    Except.error (DataException.BindingException vecBoolDirMsg)
  else if (VecBoolBinding.mkRecord v nm d).numOfRowsHandled v = 0 then
    Except.error (DataException.BindingException emptyCollMsg)
  else Except.ok (VecBoolBinding.mkRecord v nm d)

/-- Modelled from the spec: Binder assignment by the consumer. -/
def VecBoolBinding.setBinder (b : VecBoolBinding) (bd : Binder Bool) : VecBoolBinding :=
  { b with binder := some bd }

/-- `numOfColumnsHandled()`: returns `1u`. -/
def VecBoolBinding.numOfColumnsHandled (_b : VecBoolBinding) : Nat := 1

/-- `canBind()`: `_begin != _end` over `_deq`. -/
def VecBoolBinding.canBind (b : VecBoolBinding) : Bool := !b.rest.isEmpty

/-- `bind(pos)`: both debug assertions, then
`TypeHandler<bool>::bind(pos, *_begin, getBinder(), getDirection())` and
`++_begin` — the delivered value comes from `_deq`, never from `_val`. -/
def VecBoolBinding.bind (b : VecBoolBinding) (pos : Nat) : Option VecBoolBinding :=
  match b.binder with
  | none => none
  | some bd =>
      match b.rest with
      | [] => none
      | x :: tl =>
          some { b with
                    binder := some (TypeHandler.bindOp pos x bd b.direction)
                    rest := tl }

/-- `reset()`: `_begin = _deq.begin(); _end = _deq.end();` — re-derived from
the construction-time snapshot `_deq`, not from the live `_val`. -/
def VecBoolBinding.reset (b : VecBoolBinding) : VecBoolBinding :=
  { b with rest := b.deq }

/-- Iterated `bind(pos)` for the boolean-sequence specialization. -/
def VecBoolBinding.bindN (pos : Nat) : Nat → VecBoolBinding → Option VecBoolBinding
  | 0, b => some b
  | Nat.succ n, b =>
      match VecBoolBinding.bind b pos with
      | none => none
      | some b2 => VecBoolBinding.bindN pos n b2

/-! ## `Binding<std::map<K, V>>` and `Binding<std::multimap<K, V>>`

The two associative specializations have textually identical member bodies;
`MapBinding` embeds both, with the collection given as its entry list in
key-iteration order (ascending key order). -/

/-- `Binding<std::map<K, V>>` (and multimap). Same field correspondence as
`SeqBinding`, with entries as key/value pairs. -/
structure MapBinding (κ ν : Type) where
  name : String
  direction : Direction
  pVal : Option (List (κ × ν))
  val : List (κ × ν)
  rest : List (κ × ν)
  binder : Option (Binder ν)
deriving DecidableEq

/-- `numOfRowsHandled()`: returns `_val.size()`. -/
def MapBinding.numOfRowsHandled (b : MapBinding κ ν) : Nat := b.val.length

/-- The member-initializer list of the map/multimap constructor. -/
def MapBinding.mkRecord (v : List (κ × ν)) (nm : String) (d : Direction) (copy : Bool) :
    MapBinding κ ν :=
  { name := nm, direction := d, pVal := if copy then some v else none,
    val := v, rest := v, binder := none }

/-- The constructor body:
`if (PD_IN == direction && numOfRowsHandled() == 0) throw BindingException(...)`. -/
def MapBinding.construct (v : List (κ × ν)) (nm : String) (d : Direction) (copy : Bool) :
    Except DataException (MapBinding κ ν) :=
  if d = Direction.PD_IN ∧ (MapBinding.mkRecord v nm d copy).numOfRowsHandled = 0 then
    Except.error (DataException.BindingException emptyCollMsg)
  else Except.ok (MapBinding.mkRecord v nm d copy)

/-- Modelled from the spec: Binder assignment by the consumer. -/
def MapBinding.setBinder (b : MapBinding κ ν) (bd : Binder ν) : MapBinding κ ν :=
  { b with binder := some bd }

/-- `numOfColumnsHandled()`: returns `TypeHandler<V>::size()` — computed from
the mapped-value type's handler (the signature takes a
`TypeHandlerInfo ν`, never one for the key type). -/
def MapBinding.numOfColumnsHandled (_b : MapBinding κ ν) (thV : TypeHandlerInfo ν) :
    Nat :=
  thV.size

/-- `canBind()`: `_begin != _end`. -/
def MapBinding.canBind (b : MapBinding κ ν) : Bool := !b.rest.isEmpty

/-- `bind(pos)`: both debug assertions, then
`TypeHandler<V>::bind(pos, _begin->second, getBinder(), getDirection())` and
`++_begin` — only the mapped value of the entry under the cursor is passed
to the type handler; the key is not. -/
def MapBinding.bind (b : MapBinding κ ν) (pos : Nat) : Option (MapBinding κ ν) :=
  match b.binder with
  | none => none
  | some bd =>
      match b.rest with
      | [] => none
      | e :: tl =>
          some { b with
                    binder := some (TypeHandler.bindOp pos e.2 bd b.direction)
                    rest := tl }

/-- `reset()`: `_begin = _val.begin(); _end = _val.end();`. -/
def MapBinding.reset (b : MapBinding κ ν) : MapBinding κ ν :=
  { b with rest := b.val }

/-- Iterated `bind(pos)` for the associative specializations. -/
def MapBinding.bindN (pos : Nat) : Nat → MapBinding κ ν → Option (MapBinding κ ν)
  | 0, b => some b
  | Nat.succ n, b =>
      match MapBinding.bind b pos with
      | none => none
      | some b2 => MapBinding.bindN pos n b2

/-! ## Factory functions -/

/-- Modelled from the spec: the null/absent special value marker type
(`NullData`, defined outside this header), used to bind an explicit database
NULL. -/
inductive NullData
  | nullGeneric
deriving DecidableEq

/-- The five convenience factory functions declared at the end of the
header. -/
inductive Factory
  | useFn
  | inFn
  | outFn
  | ioFn
  | bindFn
deriving DecidableEq

/-- Which factory functions declare a dedicated `NullData` overload.
Transcribed from the source: the header declares
`Binding<NullData>* use(const NullData&, const std::string&)` and
`Binding<NullData>* in(const NullData&, const std::string&)`; `out`, `io`
and `bind` are declared only as templates, with no `NullData` overload. -/
def hasNullDataOverload : Factory → Bool
  | Factory.useFn => true
  | Factory.inFn => true
  | Factory.outFn => false
  | Factory.ioFn => false
  | Factory.bindFn => false

/-- `use(const NullData& t, name)`:
`new Binding<NullData>(const_cast<NullData&>(t), name, PD_IN)` — direction
IN, copy defaulted to `false` (reference semantics). -/
def useNullData (t : NullData) (nm : String) : ScalarBinding NullData :=
  ScalarBinding.construct t nm Direction.PD_IN false

/-- `in(const NullData& t, name)`: identical body to the `use` overload. -/
def inNullData (t : NullData) (nm : String) : ScalarBinding NullData :=
  ScalarBinding.construct t nm Direction.PD_IN false

/-- `use(T& t, name)` / `in(T& t, name)`: `new Binding<T>(t, name, PD_IN)`
(copy defaults to `false`), shown here at a scalar type. -/
def useFactory (t : α) (nm : String) : ScalarBinding α :=
  ScalarBinding.construct t nm Direction.PD_IN false

/-- `out(T& t)`: `new Binding<T>(t, "", PD_OUT)`. -/
def outFactory (t : α) : ScalarBinding α :=
  ScalarBinding.construct t "" Direction.PD_OUT false

/-- `io(T& t)`: `new Binding<T>(t, "", PD_IN_OUT)`. -/
def ioFactory (t : α) : ScalarBinding α :=
  ScalarBinding.construct t "" Direction.PD_IN_OUT false

/-- `bind(T t, name)`: `new Binding<T>(t, name, PD_IN, true)` — always a
copy, direction IN. -/
def bindFactory (t : α) (nm : String) : ScalarBinding α :=
  ScalarBinding.construct t nm Direction.PD_IN true

/-! ## Helper lemmas: constructor inversions and the drain equations -/

/-- Inversion of a successful sequence-binding construction. -/
theorem seq_construct_ok {α : Type} {v : List α} {nm : String} {d : Direction}
    {c : Bool} {b : SeqBinding α}
    (h : SeqBinding.construct v nm d c = Except.ok b) :
    b = SeqBinding.mkRecord v nm d c ∧ (d = Direction.PD_IN → v ≠ []) := by
  unfold SeqBinding.construct at h
  split at h
  · exact Except.noConfusion h
  · next hcond =>
      refine ⟨(Except.ok.injEq _ _).mp h |>.symm, ?_⟩
      intro hd hv
      exact hcond ⟨hd, by simp [SeqBinding.numOfRowsHandled, SeqBinding.mkRecord, hv]⟩

/-- Inversion of a successful map-binding construction. -/
theorem map_construct_ok {κ ν : Type} {v : List (κ × ν)} {nm : String}
    {d : Direction} {c : Bool} {b : MapBinding κ ν}
    (h : MapBinding.construct v nm d c = Except.ok b) :
    b = MapBinding.mkRecord v nm d c ∧ (d = Direction.PD_IN → v ≠ []) := by
  unfold MapBinding.construct at h
  split at h
  · exact Except.noConfusion h
  · next hcond =>
      refine ⟨(Except.ok.injEq _ _).mp h |>.symm, ?_⟩
      intro hd hv
      exact hcond ⟨hd, by simp [MapBinding.numOfRowsHandled, MapBinding.mkRecord, hv]⟩

/-- Inversion of a successful boolean-sequence construction. -/
theorem vecBool_construct_ok {v : List Bool} {nm : String} {d : Direction}
    {b : VecBoolBinding}
    (h : VecBoolBinding.construct v nm d = Except.ok b) :
    b = VecBoolBinding.mkRecord v nm d ∧ d = Direction.PD_IN ∧ v ≠ [] := by
  unfold VecBoolBinding.construct at h
  split at h
  · exact Except.noConfusion h
  · next hdir =>
      split at h
      · exact Except.noConfusion h
      · next hlen =>
          refine ⟨(Except.ok.injEq _ _).mp h |>.symm, not_not.mp hdir, ?_⟩
          intro hv
          exact hlen (by simp [VecBoolBinding.numOfRowsHandled, hv])

/-- The drain equation for the sequence-like specializations: with a Binder
attached and at least `k` elements remaining, `k` successive `bind` calls
succeed, advance the cursor by `k`, and append exactly the next `k` elements
(in iteration order, with the given position and the binding's direction) to
the Binder's log. -/
theorem seq_bindN_eq {α : Type} (pos : Nat) :
    ∀ (k : Nat) (b : SeqBinding α) (bd : Binder α),
      b.binder = some bd → k ≤ b.rest.length →
      SeqBinding.bindN pos k b =
        some { b with
                  rest := b.rest.drop k
                  binder := some { bd with
                    log := bd.log ++
                      (b.rest.take k).map (fun x => (pos, x, b.direction)) } } := by
  intro k
  induction k with
  | zero =>
      intro b bd hbd _
      simp only [SeqBinding.bindN, List.drop_zero, List.take_zero, List.map_nil,
        List.append_nil, ← hbd]
  | succ n ih =>
      intro b bd hbd hk
      cases hrest : b.rest with
      | nil => rw [hrest] at hk; exact absurd hk (by simp)
      | cons x tl =>
          rw [hrest] at hk
          simp only [List.length_cons, Nat.succ_le_succ_iff] at hk
          have hbind : SeqBinding.bind b pos =
              some { b with
                        binder := some (TypeHandler.bindOp pos x bd b.direction)
                        rest := tl } := by
            simp [SeqBinding.bind, hbd, hrest]
          have h2 := ih { b with
                            binder := some (TypeHandler.bindOp pos x bd b.direction)
                            rest := tl }
            (TypeHandler.bindOp pos x bd b.direction) rfl hk
          simp only [SeqBinding.bindN, hbind]
          rw [h2]
          simp [TypeHandler.bindOp, Binder.bindValue, List.take_succ_cons,
            List.drop_succ_cons, List.append_assoc]

/-- The drain equation for the associative specializations: `k` successive
`bind` calls append only the mapped values of the next `k` entries to the
Binder's log. -/
theorem map_bindN_eq {κ ν : Type} (pos : Nat) :
    ∀ (k : Nat) (b : MapBinding κ ν) (bd : Binder ν),
      b.binder = some bd → k ≤ b.rest.length →
      MapBinding.bindN pos k b =
        some { b with
                  rest := b.rest.drop k
                  binder := some { bd with
                    log := bd.log ++
                      (b.rest.take k).map (fun e => (pos, e.2, b.direction)) } } := by
  intro k
  induction k with
  | zero =>
      intro b bd hbd _
      simp only [MapBinding.bindN, List.drop_zero, List.take_zero, List.map_nil,
        List.append_nil, ← hbd]
  | succ n ih =>
      intro b bd hbd hk
      cases hrest : b.rest with
      | nil => rw [hrest] at hk; exact absurd hk (by simp)
      | cons e tl =>
          rw [hrest] at hk
          simp only [List.length_cons, Nat.succ_le_succ_iff] at hk
          have hbind : MapBinding.bind b pos =
              some { b with
                        binder := some (TypeHandler.bindOp pos e.2 bd b.direction)
                        rest := tl } := by
            simp [MapBinding.bind, hbd, hrest]
          have h2 := ih { b with
                            binder := some (TypeHandler.bindOp pos e.2 bd b.direction)
                            rest := tl }
            (TypeHandler.bindOp pos e.2 bd b.direction) rfl hk
          simp only [MapBinding.bindN, hbind]
          rw [h2]
          simp [TypeHandler.bindOp, Binder.bindValue, List.take_succ_cons,
            List.drop_succ_cons, List.append_assoc]

/-- The drain equation for the boolean-sequence specialization. -/
theorem vecBool_bindN_eq (pos : Nat) :
    ∀ (k : Nat) (b : VecBoolBinding) (bd : Binder Bool),
      b.binder = some bd → k ≤ b.rest.length →
      VecBoolBinding.bindN pos k b =
        some { b with
                  rest := b.rest.drop k
                  binder := some { bd with
                    log := bd.log ++
                      (b.rest.take k).map (fun x => (pos, x, b.direction)) } } := by
  intro k
  induction k with
  | zero =>
      intro b bd hbd _
      simp only [VecBoolBinding.bindN, List.drop_zero, List.take_zero, List.map_nil,
        List.append_nil, ← hbd]
  | succ n ih =>
      intro b bd hbd hk
      cases hrest : b.rest with
      | nil => rw [hrest] at hk; exact absurd hk (by simp)
      | cons x tl =>
          rw [hrest] at hk
          simp only [List.length_cons, Nat.succ_le_succ_iff] at hk
          have hbind : VecBoolBinding.bind b pos =
              some { b with
                        binder := some (TypeHandler.bindOp pos x bd b.direction)
                        rest := tl } := by
            simp [VecBoolBinding.bind, hbd, hrest]
          have h2 := ih { b with
                            binder := some (TypeHandler.bindOp pos x bd b.direction)
                            rest := tl }
            (TypeHandler.bindOp pos x bd b.direction) rfl hk
          simp only [VecBoolBinding.bindN, hbind]
          rw [h2]
          simp [TypeHandler.bindOp, Binder.bindValue, List.take_succ_cons,
            List.drop_succ_cons, List.append_assoc]

/-! ## Claim C1 -/

/-- C1 counterexample: constructing a Binding over an empty `std::vector<int>`
with direction IN_OUT succeeds — the empty-collection check is gated on
`PD_IN == direction` only — refuting the claim that an empty collection with
direction IN_OUT fails at construction with a BindingException. The same
holds for the map shape. -/
theorem c1_counterexample :
    SeqBinding.construct ([] : List Int) "" Direction.PD_IN_OUT false
        = Except.ok (SeqBinding.mkRecord [] "" Direction.PD_IN_OUT false)
    ∧ MapBinding.construct ([] : List (Int × Int)) "" Direction.PD_IN_OUT false
        = Except.ok (MapBinding.mkRecord [] "" Direction.PD_IN_OUT false) := by
  constructor
  · rfl
  · rfl

/-- C1 (amended): for every container shape (vector/list/deque/set/multiset
via `SeqBinding`, map/multimap via `MapBinding`), constructing a Binding over
an empty collection fails with a BindingException exactly when the direction
is IN; with direction OUT or IN_OUT it succeeds. No Binder is touched: the
constructed record carries `binder := none` and construction performs no
Binder operation. -/
theorem c1_empty_check {α κ ν : Type} (nm : String) (c : Bool) (d : Direction) :
    (SeqBinding.construct ([] : List α) nm d c =
      if d = Direction.PD_IN then
        Except.error (DataException.BindingException emptyCollMsg)
      else Except.ok (SeqBinding.mkRecord [] nm d c))
    ∧ (MapBinding.construct ([] : List (κ × ν)) nm d c =
      if d = Direction.PD_IN then
        Except.error (DataException.BindingException emptyCollMsg)
      else Except.ok (MapBinding.mkRecord [] nm d c))
    ∧ (SeqBinding.mkRecord ([] : List α) nm d c).binder = none
    ∧ (MapBinding.mkRecord ([] : List (κ × ν)) nm d c).binder = none := by
  refine ⟨?_, ?_, rfl, rfl⟩
  · cases d <;>
      simp [SeqBinding.construct, SeqBinding.numOfRowsHandled, SeqBinding.mkRecord]
  · cases d <;>
      simp [MapBinding.construct, MapBinding.numOfRowsHandled, MapBinding.mkRecord]

/-! ## Claim C2 -/

/-- C2: for every non-empty collection bound as IN, `numOfRowsHandled()`
equals the collection's element count; before each of the first
`numOfRowsHandled()` bind calls `canBind()` is still true, and exactly that
many bind calls — each delivering to the type handler the element currently
under the cursor, in the collection's iteration order — leave
`canBind() = false`, the delivered sequence being recorded in the Binder's
log. -/
theorem c2_in_drain {α : Type} (l : List α) (nm : String) (c : Bool)
    (b : SeqBinding α)
    (hok : SeqBinding.construct l nm Direction.PD_IN c = Except.ok b)
    (bd : Binder α) (pos : Nat) :
    b.numOfRowsHandled = l.length
    ∧ (∀ k, k < l.length →
        ∃ bk, SeqBinding.bindN pos k (b.setBinder bd) = some bk ∧ bk.canBind = true)
    ∧ ∃ bf, SeqBinding.bindN pos l.length (b.setBinder bd) = some bf
        ∧ bf.canBind = false
        ∧ bf.binder = some { bd with
            log := bd.log ++ l.map (fun x => (pos, x, Direction.PD_IN)) } := by
  obtain ⟨hb, -⟩ := seq_construct_ok hok
  subst hb
  refine ⟨rfl, ?_, ?_⟩
  · intro k hk
    refine ⟨_, seq_bindN_eq pos k _ bd rfl (Nat.le_of_lt hk), ?_⟩
    simp [SeqBinding.canBind, SeqBinding.setBinder, SeqBinding.mkRecord,
      List.drop_eq_nil_iff]
    omega
  · refine ⟨_, seq_bindN_eq pos l.length _ bd rfl (le_refl _), ?_, ?_⟩
    · simp [SeqBinding.canBind, SeqBinding.setBinder, SeqBinding.mkRecord]
    · simp [SeqBinding.setBinder, SeqBinding.mkRecord]

/-- C2 witness: the three-element sequence [10, 20, 30] bound as IN has
`numOfRowsHandled() = 3`; the partial drains keep `canBind()` true and the
full drain delivers 10, then 20, then 30, ending with `canBind() = false`. -/
theorem c2_witness :
    (SeqBinding.mkRecord ([10, 20, 30] : List Int) "" Direction.PD_IN
        false).numOfRowsHandled = ([10, 20, 30] : List Int).length
    ∧ (∀ k, k < ([10, 20, 30] : List Int).length →
        ∃ bk, SeqBinding.bindN 0 k
            ((SeqBinding.mkRecord ([10, 20, 30] : List Int) "" Direction.PD_IN
              false).setBinder { log := [], resetCount := 0 }) = some bk
          ∧ bk.canBind = true)
    ∧ ∃ bf, SeqBinding.bindN 0 ([10, 20, 30] : List Int).length
          ((SeqBinding.mkRecord ([10, 20, 30] : List Int) "" Direction.PD_IN
            false).setBinder { log := [], resetCount := 0 }) = some bf
        ∧ bf.canBind = false
        ∧ bf.binder = some
            { log := ([] : List (Nat × Int × Direction)) ++
                ([10, 20, 30] : List Int).map (fun x => (0, x, Direction.PD_IN))
              resetCount := 0 } :=
  c2_in_drain [10, 20, 30] "" false
    (SeqBinding.mkRecord [10, 20, 30] "" Direction.PD_IN false) rfl
    { log := [], resetCount := 0 } 0

/-! ## Claim C3 -/

/-- C3 counterexample: an empty `std::vector<int>` bound with direction OUT
constructs successfully and is already fully drained (`canBind() = false`
with zero of zero rows bound), yet `reset()` does not restore
`canBind() = true` — refuting the claim for this container Binding. -/
theorem c3_counterexample :
    SeqBinding.construct ([] : List Int) "" Direction.PD_OUT false
        = Except.ok (SeqBinding.mkRecord [] "" Direction.PD_OUT false)
    ∧ (SeqBinding.mkRecord ([] : List Int) "" Direction.PD_OUT false).canBind = false
    ∧ (SeqBinding.reset
        (SeqBinding.mkRecord ([] : List Int) "" Direction.PD_OUT false)).canBind
        = false := by
  exact ⟨rfl, rfl, rfl⟩

/-- C3 (amended): for every container Binding over a *non-empty* collection,
once fully drained (`canBind() = false` after `numOfRowsHandled()` bind
calls), `reset()` restores `canBind() = true` and a subsequent full drain of
`numOfRowsHandled()` bind calls delivers the same sequence of row values as
the first drain (the Binder's log ends with that sequence twice). Stated for
the sequence-like, associative and boolean-sequence container adapters. -/
theorem c3_restart {α κ ν : Type}
    (l : List α) (m : List (κ × ν)) (w : List Bool) (nm : String) (c : Bool)
    (d dm : Direction)
    (bs : SeqBinding α) (bm : MapBinding κ ν) (bw : VecBoolBinding)
    (hls : l ≠ []) (hlm : m ≠ [])
    (hs : SeqBinding.construct l nm d c = Except.ok bs)
    (hm : MapBinding.construct m nm dm c = Except.ok bm)
    (hw : VecBoolBinding.construct w nm Direction.PD_IN = Except.ok bw)
    (bd : Binder α) (bdm : Binder ν) (bdw : Binder Bool) (pos : Nat) :
    (∃ b1, SeqBinding.bindN pos bs.numOfRowsHandled (bs.setBinder bd) = some b1
      ∧ b1.canBind = false
      ∧ (SeqBinding.reset b1).canBind = true
      ∧ ∃ b2, SeqBinding.bindN pos bs.numOfRowsHandled (SeqBinding.reset b1) = some b2
          ∧ b2.binder = some { bd with
              log := bd.log ++ l.map (fun x => (pos, x, d))
                ++ l.map (fun x => (pos, x, d)) })
    ∧ (∃ b1, MapBinding.bindN pos bm.numOfRowsHandled (bm.setBinder bdm) = some b1
      ∧ b1.canBind = false
      ∧ (MapBinding.reset b1).canBind = true
      ∧ ∃ b2, MapBinding.bindN pos bm.numOfRowsHandled (MapBinding.reset b1) = some b2
          ∧ b2.binder = some { bdm with
              log := bdm.log ++ m.map (fun e => (pos, e.2, dm))
                ++ m.map (fun e => (pos, e.2, dm)) })
    ∧ (∃ b1, VecBoolBinding.bindN pos (bw.numOfRowsHandled w) (bw.setBinder bdw)
          = some b1
      ∧ b1.canBind = false
      ∧ (VecBoolBinding.reset b1).canBind = true
      ∧ ∃ b2, VecBoolBinding.bindN pos (bw.numOfRowsHandled w)
            (VecBoolBinding.reset b1) = some b2
          ∧ b2.binder = some { bdw with
              log := bdw.log ++ w.map (fun x => (pos, x, Direction.PD_IN))
                ++ w.map (fun x => (pos, x, Direction.PD_IN)) }) := by
  obtain ⟨hbs, -⟩ := seq_construct_ok hs
  obtain ⟨hbm, -⟩ := map_construct_ok hm
  obtain ⟨hbw, -, hwne⟩ := vecBool_construct_ok hw
  subst hbs
  subst hbm
  subst hbw
  obtain ⟨x, tl, rfl⟩ := List.exists_cons_of_ne_nil hls
  obtain ⟨em, tm, rfl⟩ := List.exists_cons_of_ne_nil hlm
  obtain ⟨xw, tw, rfl⟩ := List.exists_cons_of_ne_nil hwne
  refine ⟨?_, ?_, ?_⟩
  · refine ⟨_, seq_bindN_eq pos _ _ bd rfl (le_refl _), ?_, ?_, ?_⟩
    · simp [SeqBinding.canBind, SeqBinding.setBinder, SeqBinding.mkRecord,
        SeqBinding.numOfRowsHandled]
    · simp [SeqBinding.canBind, SeqBinding.reset, SeqBinding.setBinder,
        SeqBinding.mkRecord]
    · refine ⟨_, seq_bindN_eq pos _ _ _ rfl (le_refl _), ?_⟩
      simp [SeqBinding.reset, SeqBinding.setBinder, SeqBinding.mkRecord,
        SeqBinding.numOfRowsHandled, List.append_assoc]
  · refine ⟨_, map_bindN_eq pos _ _ bdm rfl (le_refl _), ?_, ?_, ?_⟩
    · simp [MapBinding.canBind, MapBinding.setBinder, MapBinding.mkRecord,
        MapBinding.numOfRowsHandled]
    · simp [MapBinding.canBind, MapBinding.reset, MapBinding.setBinder,
        MapBinding.mkRecord]
    · refine ⟨_, map_bindN_eq pos _ _ _ rfl (le_refl _), ?_⟩
      simp [MapBinding.reset, MapBinding.setBinder, MapBinding.mkRecord,
        MapBinding.numOfRowsHandled, List.append_assoc]
  · refine ⟨_, vecBool_bindN_eq pos _ _ bdw rfl (le_refl _), ?_, ?_, ?_⟩
    · simp [VecBoolBinding.canBind, VecBoolBinding.setBinder, VecBoolBinding.mkRecord,
        VecBoolBinding.numOfRowsHandled]
    · simp [VecBoolBinding.canBind, VecBoolBinding.reset, VecBoolBinding.setBinder,
        VecBoolBinding.mkRecord]
    · refine ⟨_, vecBool_bindN_eq pos _ _ _ rfl (le_refl _), ?_⟩
      simp [VecBoolBinding.reset, VecBoolBinding.setBinder, VecBoolBinding.mkRecord,
        VecBoolBinding.numOfRowsHandled, List.append_assoc]

/-- C3 witness: the restart law at the vector [10, 20, 30] bound IN, the map
\x7b1 ↦ 100\x7d bound IN, and the boolean vector [true]. -/
theorem c3_witness :
    (∃ b1, SeqBinding.bindN 0
          (SeqBinding.mkRecord ([10, 20, 30] : List Int) "" Direction.PD_IN
            false).numOfRowsHandled
          ((SeqBinding.mkRecord ([10, 20, 30] : List Int) "" Direction.PD_IN
            false).setBinder { log := [], resetCount := 0 }) = some b1
      ∧ b1.canBind = false
      ∧ (SeqBinding.reset b1).canBind = true
      ∧ ∃ b2, SeqBinding.bindN 0
            (SeqBinding.mkRecord ([10, 20, 30] : List Int) "" Direction.PD_IN
              false).numOfRowsHandled (SeqBinding.reset b1) = some b2
          ∧ b2.binder = some
              { log := ([] : List (Nat × Int × Direction)) ++
                  ([10, 20, 30] : List Int).map (fun x => (0, x, Direction.PD_IN)) ++
                  ([10, 20, 30] : List Int).map (fun x => (0, x, Direction.PD_IN))
                resetCount := 0 })
    ∧ (∃ b1, MapBinding.bindN 0
          (MapBinding.mkRecord ([((1 : Nat), (100 : Int))]) "" Direction.PD_IN
            false).numOfRowsHandled
          ((MapBinding.mkRecord ([((1 : Nat), (100 : Int))]) "" Direction.PD_IN
            false).setBinder { log := [], resetCount := 0 }) = some b1
      ∧ b1.canBind = false
      ∧ (MapBinding.reset b1).canBind = true
      ∧ ∃ b2, MapBinding.bindN 0
            (MapBinding.mkRecord ([((1 : Nat), (100 : Int))]) "" Direction.PD_IN
              false).numOfRowsHandled (MapBinding.reset b1) = some b2
          ∧ b2.binder = some
              { log := ([] : List (Nat × Int × Direction)) ++
                  ([((1 : Nat), (100 : Int))]).map (fun e => (0, e.2, Direction.PD_IN)) ++
                  ([((1 : Nat), (100 : Int))]).map (fun e => (0, e.2, Direction.PD_IN))
                resetCount := 0 })
    ∧ (∃ b1, VecBoolBinding.bindN 0
          ((VecBoolBinding.mkRecord [true] "" Direction.PD_IN).numOfRowsHandled [true])
          ((VecBoolBinding.mkRecord [true] "" Direction.PD_IN).setBinder
            { log := [], resetCount := 0 }) = some b1
      ∧ b1.canBind = false
      ∧ (VecBoolBinding.reset b1).canBind = true
      ∧ ∃ b2, VecBoolBinding.bindN 0
            ((VecBoolBinding.mkRecord [true] "" Direction.PD_IN).numOfRowsHandled
              [true]) (VecBoolBinding.reset b1) = some b2
          ∧ b2.binder = some
              { log := ([] : List (Nat × Bool × Direction)) ++
                  [true].map (fun x => (0, x, Direction.PD_IN)) ++
                  [true].map (fun x => (0, x, Direction.PD_IN))
                resetCount := 0 }) :=
  c3_restart [10, 20, 30] [((1 : Nat), (100 : Int))] [true] "" false
    Direction.PD_IN Direction.PD_IN
    (SeqBinding.mkRecord [10, 20, 30] "" Direction.PD_IN false)
    (MapBinding.mkRecord [((1 : Nat), (100 : Int))] "" Direction.PD_IN false)
    (VecBoolBinding.mkRecord [true] "" Direction.PD_IN)
    (by decide) (by decide) rfl rfl rfl
    { log := [], resetCount := 0 } { log := [], resetCount := 0 }
    { log := [], resetCount := 0 } 0

/-! ## Claim C4 -/

/-- A scalar int Binding with a Binder attached (the probe for C4). -/
def c4Start : ScalarBinding Int :=
  (ScalarBinding.construct 42 "" Direction.PD_IN false).setBinder
    { log := [], resetCount := 0 }

/-- The result of the first `bind(0)` on the probe. -/
def c4First : Option (ScalarBinding Int) :=
  ScalarBinding.bind c4Start 0

/-- The result of a second `bind(0)` without an intervening `reset()`. -/
def c4Second : Option (ScalarBinding Int) :=
  match c4First with
  | none => none
  | some b1 => ScalarBinding.bind b1 0

/-- C4 counterexample: after the single `bind` call `canBind()` is false,
yet a second `bind` without an intervening `reset()` succeeds (a rejected or
asserted call is `none` in this embedding): `Binding<T>::bind` contains no
`poco_assert_dbg(canBind())`, so the second bind is not a rejected protocol
violation — refuting that part of the claim. -/
theorem c4_counterexample :
    Option.map ScalarBinding.canBind c4First = some false
    ∧ c4Second.isSome = true := by
  exact ⟨rfl, rfl⟩

/-- C4 (amended): for every scalar Binding, `numOfRowsHandled()` is always 1
and `canBind()` is true until the single `bind` call has occurred and false
thereafter; `bind` with no Binder attached fails the debug assertion; but a
second `bind` without an intervening `reset()` is *not* rejected — it simply
re-invokes the type handler (appending a second identical bind event) and
leaves the adapter exhausted. `reset()` (with a Binder attached) restores
`canBind()` to true and reports no error. -/
theorem c4_scalar_protocol {α : Type} (v : α) (nm : String) (d : Direction)
    (c : Bool) (bd : Binder α) (pos : Nat) :
    (ScalarBinding.construct v nm d c).numOfRowsHandled = 1
    ∧ (ScalarBinding.construct v nm d c).canBind = true
    ∧ ScalarBinding.bind (ScalarBinding.construct v nm d c) pos = none
    ∧ ScalarBinding.bind ((ScalarBinding.construct v nm d c).setBinder bd) pos
        = some { name := nm, direction := d, pVal := if c then some v else none,
                 val := v, bound := true,
                 binder := some (TypeHandler.bindOp pos v bd d) }
    ∧ (ScalarBinding.canBind
        { name := nm, direction := d, pVal := if c then some v else none,
          val := v, bound := true,
          binder := some (TypeHandler.bindOp pos v bd d) }) = false
    ∧ ScalarBinding.bind
        { name := nm, direction := d, pVal := if c then some v else none,
          val := v, bound := true,
          binder := some (TypeHandler.bindOp pos v bd d) } pos
        = some { name := nm, direction := d, pVal := if c then some v else none,
                 val := v, bound := true,
                 binder := some (TypeHandler.bindOp pos v
                   (TypeHandler.bindOp pos v bd d) d) }
    ∧ (ScalarBinding.reset
        { name := nm, direction := d, pVal := if c then some v else none,
          val := v, bound := true,
          binder := some (TypeHandler.bindOp pos v bd d) }).1.canBind = true
    ∧ (ScalarBinding.reset
        { name := nm, direction := d, pVal := if c then some v else none,
          val := v, bound := true,
          binder := some (TypeHandler.bindOp pos v bd d) }).2 = none := by
  exact ⟨rfl, rfl, rfl, rfl, rfl, rfl, rfl, rfl⟩

/-! ## Claim C5 -/

/-- C5: a map-shaped Binding (map or multimap, both embedded by
`MapBinding`) of size N delivers, over its N bind calls, exactly the mapped
values of its entries in key-iteration order; the Binder's log is a function
of the mapped-value list alone (keys are never passed to the type handler's
bind operation), and `numOfColumnsHandled()` is computed from the
mapped-value type's handler. -/
theorem c5_map_values_only {κ ν : Type} (m : List (κ × ν)) (nm : String) (c : Bool)
    (dm : Direction) (b : MapBinding κ ν)
    (hok : MapBinding.construct m nm dm c = Except.ok b)
    (bdm : Binder ν) (pos : Nat) (thV : TypeHandlerInfo ν) :
    b.numOfColumnsHandled thV = thV.size
    ∧ b.numOfRowsHandled = m.length
    ∧ (∃ bf, MapBinding.bindN pos m.length (b.setBinder bdm) = some bf
        ∧ bf.binder = some { bdm with
            log := bdm.log ++ (m.map Prod.snd).map (fun v => (pos, v, dm)) })
    ∧ ∀ (m2 : List (κ × ν)) (b2 : MapBinding κ ν),
        MapBinding.construct m2 nm dm c = Except.ok b2 →
        m2.map Prod.snd = m.map Prod.snd →
        ∃ bf2, MapBinding.bindN pos m2.length (b2.setBinder bdm) = some bf2
          ∧ bf2.binder = some { bdm with
              log := bdm.log ++ (m.map Prod.snd).map (fun v => (pos, v, dm)) } := by
  obtain ⟨hb, -⟩ := map_construct_ok hok
  subst hb
  refine ⟨rfl, rfl, ?_, ?_⟩
  · refine ⟨_, map_bindN_eq pos m.length _ bdm rfl (le_refl _), ?_⟩
    simp [MapBinding.setBinder, MapBinding.mkRecord, List.map_map, Function.comp]
  · intro m2 b2 hok2 hvals
    obtain ⟨hb2, -⟩ := map_construct_ok hok2
    subst hb2
    refine ⟨_, map_bindN_eq pos m2.length _ bdm rfl (le_refl _), ?_⟩
    simp [MapBinding.setBinder, MapBinding.mkRecord, List.map_map, Function.comp,
      ← hvals]

/-- C5 witness: the two-entry map \x7b1 ↦ 10, 2 ↦ 20\x7d bound IN delivers 10
then 20 — the mapped values in key order — and reports the mapped-value
handler's column count. -/
theorem c5_witness :
    (MapBinding.mkRecord ([((1 : Nat), (10 : Int)), (2, 20)]) "" Direction.PD_IN
        false).numOfColumnsHandled { size := 1 } = (1 : Nat)
    ∧ (MapBinding.mkRecord ([((1 : Nat), (10 : Int)), (2, 20)]) "" Direction.PD_IN
        false).numOfRowsHandled = ([((1 : Nat), (10 : Int)), (2, 20)]).length
    ∧ (∃ bf, MapBinding.bindN 0 ([((1 : Nat), (10 : Int)), (2, 20)]).length
          ((MapBinding.mkRecord ([((1 : Nat), (10 : Int)), (2, 20)]) ""
            Direction.PD_IN false).setBinder { log := [], resetCount := 0 }) = some bf
        ∧ bf.binder = some
            { log := ([] : List (Nat × Int × Direction)) ++
                (([((1 : Nat), (10 : Int)), (2, 20)]).map Prod.snd).map
                  (fun v => (0, v, Direction.PD_IN))
              resetCount := 0 })
    ∧ ∀ (m2 : List (Nat × Int)) (b2 : MapBinding Nat Int),
        MapBinding.construct m2 "" Direction.PD_IN false = Except.ok b2 →
        m2.map Prod.snd = ([((1 : Nat), (10 : Int)), (2, 20)]).map Prod.snd →
        ∃ bf2, MapBinding.bindN 0 m2.length (b2.setBinder { log := [], resetCount := 0 })
            = some bf2
          ∧ bf2.binder = some
              { log := ([] : List (Nat × Int × Direction)) ++
                  (([((1 : Nat), (10 : Int)), (2, 20)]).map Prod.snd).map
                    (fun v => (0, v, Direction.PD_IN))
                resetCount := 0 } :=
  c5_map_values_only [((1 : Nat), (10 : Int)), (2, 20)] "" false Direction.PD_IN
    (MapBinding.mkRecord [((1 : Nat), (10 : Int)), (2, 20)] "" Direction.PD_IN false)
    rfl { log := [], resetCount := 0 } 0 { size := 1 }

/-! ## Claim C6 -/

/-- C6: constructing a `const char*` Binding from a null source pointer fails
with a `NullPointerException` regardless of the requested copy flag; for a
non-null source the result is independent of the copy flag and the
characters are copied into the owned string field `_val`, so every later
observable depends only on that owned copy. -/
theorem c6_charptr_null_and_copy (s : String) (nm : String) (d : Direction)
    (c1 c2 : Bool) :
    CharPtrBinding.construct none nm d c1
        = Except.error DataException.NullPointerException
    ∧ CharPtrBinding.construct (some s) nm d c1
        = CharPtrBinding.construct (some s) nm d c2
    ∧ CharPtrBinding.construct (some s) nm d c1
        = Except.ok { name := nm, direction := d, val := s, bound := false,
                      binder := none } := by
  exact ⟨rfl, rfl, rfl⟩

/-! ## Claim C7 -/

/-- C7: constructing a `std::vector<bool>` Binding with any direction other
than IN (OUT or IN_OUT) fails at construction with a BindingException; only
direction IN is accepted (and then succeeds exactly when the vector is
non-empty). -/
theorem c7_vecbool_direction (v : List Bool) (nm : String) (d : Direction)
    (h : d ≠ Direction.PD_IN) :
    VecBoolBinding.construct v nm d
        = Except.error (DataException.BindingException vecBoolDirMsg)
    ∧ isOkE (VecBoolBinding.construct v nm Direction.PD_IN) = !v.isEmpty := by
  constructor
  · simp [VecBoolBinding.construct, h]
  · cases v
    · rfl
    · rfl

/-- C7 witness: [true, false] with direction OUT is rejected with the
direction BindingException, while direction IN succeeds. -/
theorem c7_witness :
    VecBoolBinding.construct [true, false] "" Direction.PD_OUT
        = Except.error (DataException.BindingException vecBoolDirMsg)
    ∧ isOkE (VecBoolBinding.construct [true, false] "" Direction.PD_IN)
        = !([true, false] : List Bool).isEmpty :=
  c7_vecbool_direction [true, false] "" Direction.PD_OUT (by decide)

/-! ## Claim C8 -/

/-- C8 counterexample: construct a `std::vector<bool>` Binding over the
source [true], then mutate the source to [true, false]. The observable
`numOfRowsHandled()` returns `_val.size()` — the size of the *live*
referenced vector — so it changes from 1 to 2 under the mutation, refuting
the claim that every observable of the adapter is unchanged. -/
theorem c8_counterexample :
    VecBoolBinding.construct [true] "" Direction.PD_IN
        = Except.ok (VecBoolBinding.mkRecord [true] "" Direction.PD_IN)
    ∧ (VecBoolBinding.mkRecord [true] "" Direction.PD_IN).numOfRowsHandled
        [true] = 1
    ∧ (VecBoolBinding.mkRecord [true] "" Direction.PD_IN).numOfRowsHandled
        [true, false] = 2 := by
  exact ⟨rfl, rfl, rfl⟩

/-- C8 (amended): the boolean-sequence Binding snapshots the source into
`_deq` at construction. `bind`, `canBind` and `reset` are computed from the
snapshot only (their embeddings take no live-source argument, mirroring that
the members read only `_deq`): a full drain delivers the construction-time
contents, and `reset` repositions onto the snapshot. The one exception is
`numOfRowsHandled()`, which reads the live referenced vector and returns its
*current* size — it does change when the source is mutated. -/
theorem c8_snapshot (v : List Bool) (nm : String) (b : VecBoolBinding)
    (hok : VecBoolBinding.construct v nm Direction.PD_IN = Except.ok b)
    (bdw : Binder Bool) (pos : Nat) :
    b.deq = v
    ∧ (∃ bf, VecBoolBinding.bindN pos v.length (b.setBinder bdw) = some bf
        ∧ bf.binder = some { bdw with
            log := bdw.log ++ v.map (fun x => (pos, x, Direction.PD_IN)) }
        ∧ (VecBoolBinding.reset bf).rest = v)
    ∧ ∀ live : List Bool, b.numOfRowsHandled live = live.length := by
  obtain ⟨hb, -, -⟩ := vecBool_construct_ok hok
  subst hb
  refine ⟨rfl, ?_, fun live => rfl⟩
  refine ⟨_, vecBool_bindN_eq pos v.length _ bdw rfl (le_refl _), ?_, ?_⟩
  · simp [VecBoolBinding.setBinder, VecBoolBinding.mkRecord]
  · simp [VecBoolBinding.reset, VecBoolBinding.setBinder, VecBoolBinding.mkRecord]

/-- C8 witness: the snapshot law at the source [true, false]. -/
theorem c8_witness :
    (VecBoolBinding.mkRecord [true, false] "" Direction.PD_IN).deq = [true, false]
    ∧ (∃ bf, VecBoolBinding.bindN 0 ([true, false] : List Bool).length
          ((VecBoolBinding.mkRecord [true, false] "" Direction.PD_IN).setBinder
            { log := [], resetCount := 0 }) = some bf
        ∧ bf.binder = some
            { log := ([] : List (Nat × Bool × Direction)) ++
                [true, false].map (fun x => (0, x, Direction.PD_IN))
              resetCount := 0 }
        ∧ (VecBoolBinding.reset bf).rest = [true, false])
    ∧ ∀ live : List Bool,
        (VecBoolBinding.mkRecord [true, false] "" Direction.PD_IN).numOfRowsHandled
          live = live.length :=
  c8_snapshot [true, false] ""
    (VecBoolBinding.mkRecord [true, false] "" Direction.PD_IN) rfl
    { log := [], resetCount := 0 } 0

/-! ## Claim C9 -/

/-- C9 counterexample: the `out` factory declares no dedicated `NullData`
overload (the header declares `NullData` overloads for `use` and `in` only),
refuting the claim that each of the four factory families has one. -/
theorem c9_counterexample : hasNullDataOverload Factory.outFn = false := by
  exact rfl

/-- C9 (amended): only the IN-direction factories `use` and `in` declare a
dedicated `NullData` overload; each produces a Binding with direction IN and
reference (no-copy) semantics. `out`, `io` and `bind` declare none (a
`NullData` argument would go through the generic template instead). -/
theorem c9_nulldata_overloads (t : NullData) (nm : String) :
    (∀ f, hasNullDataOverload f = true ↔ (f = Factory.useFn ∨ f = Factory.inFn))
    ∧ useNullData t nm
        = { name := nm, direction := Direction.PD_IN, pVal := none, val := t,
            bound := false, binder := none }
    ∧ inNullData t nm
        = { name := nm, direction := Direction.PD_IN, pVal := none, val := t,
            bound := false, binder := none } := by
  refine ⟨?_, rfl, rfl⟩
  intro f
  cases f <;> simp [hasNullDataOverload]

/-! ## Claim C10 -/

/-- C10: the container adapters' `reset()` only repositions the internal
cursor and leaves the attached Binder unchanged (it never invokes the
Binder's reset), whereas the scalar and `const char*` adapters' `reset()`
forwards to the attached Binder's reset (incrementing its reset counter) and
reports a `NullPointerException` when no Binder is attached. -/
theorem c10_reset_frame {α κ ν : Type} (sb : SeqBinding α) (mb : MapBinding κ ν)
    (vb : VecBoolBinding) (s0 s1 : ScalarBinding α) (c0 c1 : CharPtrBinding)
    (bd : Binder α) (bds : Binder String)
    (h0 : s0.binder = none) (h1 : s1.binder = some bd)
    (hc0 : c0.binder = none) (hc1 : c1.binder = some bds) :
    (SeqBinding.reset sb).binder = sb.binder
    ∧ (MapBinding.reset mb).binder = mb.binder
    ∧ (VecBoolBinding.reset vb).binder = vb.binder
    ∧ (ScalarBinding.reset s0).2 = some DataException.NullPointerException
    ∧ (ScalarBinding.reset s1).1.binder = some (Binder.reset bd)
    ∧ (ScalarBinding.reset s1).2 = none
    ∧ (CharPtrBinding.reset c0).2 = some DataException.NullPointerException
    ∧ (CharPtrBinding.reset c1).1.binder = some (Binder.reset bds)
    ∧ (CharPtrBinding.reset c1).2 = none := by
  refine ⟨rfl, rfl, rfl, ?_, ?_, ?_, ?_, ?_, ?_⟩
  · simp [ScalarBinding.reset, h0]
  · simp [ScalarBinding.reset, h1]
  · simp [ScalarBinding.reset, h1]
  · simp [CharPtrBinding.reset, hc0]
  · simp [CharPtrBinding.reset, hc1]
  · simp [CharPtrBinding.reset, hc1]

/-- C10 witness: the reset frame law at concrete adapters (an int vector
binding, a map binding, a boolean vector binding, scalar adapters with and
without a Binder, and string-literal adapters with and without a Binder). -/
theorem c10_witness :
    (SeqBinding.reset (SeqBinding.mkRecord ([1] : List Int) "" Direction.PD_IN
        false)).binder
      = (SeqBinding.mkRecord ([1] : List Int) "" Direction.PD_IN false).binder
    ∧ (MapBinding.reset (MapBinding.mkRecord ([((1 : Nat), (2 : Int))]) ""
        Direction.PD_IN false)).binder
      = (MapBinding.mkRecord ([((1 : Nat), (2 : Int))]) "" Direction.PD_IN
          false).binder
    ∧ (VecBoolBinding.reset (VecBoolBinding.mkRecord [true] ""
        Direction.PD_IN)).binder
      = (VecBoolBinding.mkRecord [true] "" Direction.PD_IN).binder
    ∧ (ScalarBinding.reset (ScalarBinding.construct (7 : Int) "" Direction.PD_IN
        false)).2 = some DataException.NullPointerException
    ∧ (ScalarBinding.reset ((ScalarBinding.construct (7 : Int) "" Direction.PD_IN
        false).setBinder { log := [], resetCount := 0 })).1.binder
      = some (Binder.reset { log := [], resetCount := 0 })
    ∧ (ScalarBinding.reset ((ScalarBinding.construct (7 : Int) "" Direction.PD_IN
        false).setBinder { log := [], resetCount := 0 })).2 = none
    ∧ (CharPtrBinding.reset
        { name := ""
          direction := Direction.PD_IN
          val := "abc"
          bound := false
          binder := none }).2
      = some DataException.NullPointerException
    ∧ (CharPtrBinding.reset
        { name := ""
          direction := Direction.PD_IN
          val := "abc"
          bound := false
          binder := some { log := [], resetCount := 0 } }).1.binder
      = some (Binder.reset { log := [], resetCount := 0 })
    ∧ (CharPtrBinding.reset
        { name := ""
          direction := Direction.PD_IN
          val := "abc"
          bound := false
          binder := some { log := [], resetCount := 0 } }).2 = none :=
  c10_reset_frame (SeqBinding.mkRecord [1] "" Direction.PD_IN false)
    (MapBinding.mkRecord [((1 : Nat), (2 : Int))] "" Direction.PD_IN false)
    (VecBoolBinding.mkRecord [true] "" Direction.PD_IN)
    (ScalarBinding.construct 7 "" Direction.PD_IN false)
    ((ScalarBinding.construct 7 "" Direction.PD_IN false).setBinder
      { log := [], resetCount := 0 })
    { name := ""
      direction := Direction.PD_IN
      val := "abc"
      bound := false
      binder := none }
    { name := ""
      direction := Direction.PD_IN
      val := "abc"
      bound := false
      binder := some { log := [], resetCount := 0 } }
    { log := [], resetCount := 0 } { log := [], resetCount := 0 }
    rfl rfl rfl rfl

end PocoData
